import Mathlib

/-!
MNCH Training Tracker — certificate issuance and verification subsystem.

A shallow embedding of the certificate subsystem of the `mnch-training-tracker`
repository, covering:

* `generate_certificate_id` (src/certificate_generator.py, lines 125-128);
* `CertificateGenerator.generate_certificate`, the PDF renderer, modelled as the
  sequence of drawing commands it issues (src/certificate_generator.py, lines 16-94);
* `CertificateGenerator.create_certificate_record` and
  `CertificateGenerator.get_certificates` (src/certificate_generator.py, lines 96-123);
* `Database.execute_query`, with its absorb-all-exceptions / rollback discipline
  (src/database.py, lines 204-243), the SQL statement semantics being modelled
  abstractly as a state transformer that can fail;
* the "Generate Certificate" and "Verify Certificate" branches of
  `certificate_management` (src/app.py, lines 614-693).

The database schema used is the one the INSERT in `create_certificate_record`
actually writes (src/update_certificates_table.py): the `certificates` table
holds `certificate_id` (UNIQUE), `training_id`, `user_id`, `issue_date`.
-/

/-- A wall-clock instant as `datetime.now()` exposes it, at the granularity the
certificate code consumes (seconds are kept so that "same calendar minute,
different instant" is expressible; `strftime("%Y%m%d%H%M")` drops them). -/
structure PyTime where
  year : Nat
  month : Nat
  day : Nat
  hour : Nat
  minute : Nat
  second : Nat
deriving DecidableEq

/-- A calendar date, as stored by SQL `CURRENT_DATE` / `DATE` columns. -/
structure PyDate where
  year : Nat
  month : Nat
  day : Nat
deriving DecidableEq

/-- The calendar date of an instant (what SQL `CURRENT_DATE` yields). -/
def PyTime.toDate (t : PyTime) : PyDate :=
  ⟨t.year, t.month, t.day⟩

/-- One decimal digit as a character, as Python's `str`/`%d` formatting emits it. -/
def digitChar : Nat → Char
  | 0 => '0' | 1 => '1' | 2 => '2' | 3 => '3' | 4 => '4'
  | 5 => '5' | 6 => '6' | 7 => '7' | 8 => '8' | 9 => '9'
  | _ => '*'

/-- Decimal digits of `n`, most significant first, with explicit fuel (the fuel
`n + 1` used below always suffices, see `natToDigitsAux_spec`). Matches Python's
decimal rendering of a non-negative integer. -/
def natToDigitsAux : Nat → Nat → List Char
  | 0, _ => []
  | fuel + 1, n =>
    if n < 10 then [digitChar n]
    else natToDigitsAux fuel (n / 10) ++ [digitChar (n % 10)]

/-- Decimal digits of `n`, most significant first. -/
def natToDigits (n : Nat) : List Char :=
  natToDigitsAux (n + 1) n

/-- Python `f"{n:0wd}"`: decimal digits of `n`, left-padded with `'0'` to a
minimum width `w` (wider values are printed in full, never truncated). -/
def padNumList (w n : Nat) : List Char :=
  List.replicate (w - (natToDigits n).length) '0' ++ natToDigits n

/-- String form of `padNumList`. -/
def padNum (w n : Nat) : String :=
  String.mk (padNumList w n)

/-- The character list behind `datetime.strftime("%Y%m%d%H%M")`: year to four
digits, then month, day, hour and minute to two digits each; seconds are not
part of the format. -/
def tsDigits (t : PyTime) : List Char :=
  padNumList 4 t.year ++ padNumList 2 t.month ++ padNumList 2 t.day ++
    padNumList 2 t.hour ++ padNumList 2 t.minute

/-- `datetime.now().strftime("%Y%m%d%H%M")` applied to the instant `t`. -/
def strftimeYmdHM (t : PyTime) : String :=
  String.mk (tsDigits t)

/-- `date.strftime("%Y-%m-%d")`, the completion-date string the app passes to
the renderer. -/
def strftimeYmd (d : PyDate) : String :=
  String.mk (padNumList 4 d.year ++ '-' :: (padNumList 2 d.month ++ '-' :: padNumList 2 d.day))

/-- `generate_certificate_id` (src/certificate_generator.py, lines 125-128):

    timestamp = datetime.now().strftime("%Y%m%d%H%M")
    return f"MNCH-{training_id:03d}-{user_id:03d}-{timestamp}"

The ambient clock read by `datetime.now()` is passed explicitly as `now`. -/
def generate_certificate_id (user_id training_id : Nat) (now : PyTime) : String :=
  "MNCH-" ++ padNum 3 training_id ++ "-" ++ padNum 3 user_id ++ "-" ++ strftimeYmdHM now

/-- One drawing command issued to the reportlab canvas while building the
certificate PDF. Styling-only parameters (fonts, colours, coordinates) do not
affect any claim and are not carried. -/
inductive DocElem where
  | rect
  | line
  | text (s : String)
  | image (payload : String)
deriving DecidableEq

/-- `CertificateGenerator.generate_certificate`
(src/certificate_generator.py, lines 16-94), as the sequence of drawing
commands written into the PDF buffer.

* `qr_ok` models whether the QR-encoding block (lines 65-83) succeeds; on
  failure the exception is caught (line 84), an error toast is shown, and the
  function continues with the footer — no element of the try-block is emitted.
* `clock` is the ambient wall clock available to the function (the module
  imports `datetime`); the body never reads it.
-/
def generate_certificate (participant_name training_title completion_date certificate_id
    training_venue training_duration : String) (qr_ok : Bool) (_clock : PyTime) : List DocElem :=
  [ DocElem.rect,
    DocElem.text "CERTIFICATE OF COMPLETION",
    DocElem.line,
    DocElem.text "This is to certify that",
    DocElem.text participant_name.toUpper,
    DocElem.text "has successfully completed the training program",
    DocElem.text ("'" ++ training_title ++ "'"),
    DocElem.text ("Venue: " ++ training_venue),
    DocElem.text ("Duration: " ++ training_duration),
    DocElem.text ("Completed on: " ++ completion_date),
    DocElem.text ("Certificate ID: " ++ certificate_id) ]
  ++ (if qr_ok then
        [ DocElem.image ("Certificate ID: " ++ certificate_id ++ "\nName: " ++ participant_name
            ++ "\nTraining: " ++ training_title ++ "\nDate: " ++ completion_date),
          DocElem.text "Scan to verify certificate" ]
      else [])
  ++ [ DocElem.text "MNCH Training Tracker - Ministry of Health" ]

/-- The PDF byte stream as returned to the caller: the draw-command content
together with the document-level metadata reportlab writes. -/
structure PdfFile where
  creation_date : PyTime
  content : List DocElem
deriving DecidableEq

/-- The full PDF file produced by `CertificateGenerator.generate_certificate`:
`canvas.save()` (src/certificate_generator.py, line 91) serialises the
draw-command content together with metadata reportlab emits by default — a
wall-clock `/CreationDate` and a time-derived document ID (both captured here
by the `creation_date` field), since the code never sets reportlab's
`invariant` option. The byte stream therefore depends on the ambient clock
even though the drawn content does not. -/
def generate_certificate_pdf (participant_name training_title completion_date certificate_id
    training_venue training_duration : String) (qr_ok : Bool) (clock : PyTime) : PdfFile :=
  ⟨clock, generate_certificate participant_name training_title completion_date certificate_id
    training_venue training_duration qr_ok clock⟩

/-- A row of the `users` table, restricted to the columns the certificate
subsystem reads (src/create_all_tables.py, users schema). -/
structure UserRow where
  id : Nat
  full_name : String
  first_name : String
  fathers_name : String
  grand_fathers_name : String
  facility : String
deriving DecidableEq

/-- A row of the `trainings` table, restricted to the columns the certificate
subsystem reads (src/create_all_tables.py, trainings schema). -/
structure TrainingRow where
  id : Nat
  title : String
  training_type : String
  start_date : PyDate
  end_date : PyDate
  venue : String
  duration : String
deriving DecidableEq

/-- A row of the `certificates` table as written by the INSERT in
`create_certificate_record` (schema of src/update_certificates_table.py:
`certificate_id` UNIQUE, `training_id`, `user_id`, `issue_date`). -/
structure CertRow where
  certificate_id : String
  training_id : Nat
  user_id : Nat
  issue_date : PyDate
deriving DecidableEq

/-- The database state visible to the certificate subsystem. -/
structure AppState where
  users : List UserRow
  trainings : List TrainingRow
  certificates : List CertRow
deriving DecidableEq

/-- Whether a `certificate_id` is already present in the `certificates` table
(the UNIQUE constraint consults exactly this). -/
def certIdExists (l : List CertRow) (cid : String) : Bool :=
  l.any (fun c => c.certificate_id == cid)

/-- `Database.execute_query` together with `Database.get_cursor`
(src/database.py, lines 204-243). The SQL engine's work on one statement is
abstracted as `stmt : AppState → Except String (AppState × α)`.

* connection unavailable and not re-establishable: `get_cursor` raises before
  the statement runs, `execute_query` catches → `(st, none)`;
* the statement raises: `get_cursor` rolls the transaction back (state
  reverts to `st`) and re-raises, `execute_query` catches → `(st, none)`;
* success: `get_cursor` commits → `(st', some value)`.

No exception ever propagates to the caller. -/
def execute_query {α : Type} (st : AppState) (connected : Bool)
    (stmt : AppState → Except String (AppState × α)) : AppState × Option α :=
  if connected then
    match stmt st with
    | Except.ok (st', v) => (st', some v)
    | Except.error _ => (st, none)
  else (st, none)

/-- Semantics of the INSERT issued by `create_certificate_record`
(src/certificate_generator.py, lines 99-102) against the `certificates` table:
`issue_date` is SQL `CURRENT_DATE`, and the UNIQUE constraint on
`certificate_id` makes the statement raise on a duplicate. -/
def insertCertStmt (certificate_id : String) (training_id user_id : Nat) (today : PyDate)
    (st : AppState) : Except String (AppState × Bool) :=
  if certIdExists st.certificates certificate_id then
    Except.error "duplicate key value violates unique constraint"
  else
    Except.ok ({ st with certificates :=
      st.certificates ++ [⟨certificate_id, training_id, user_id, today⟩] }, true)

/-- `CertificateGenerator.create_certificate_record`
(src/certificate_generator.py, lines 96-107): runs the INSERT through
`execute_query` and returns its result (`True` on success, `None` on any
database error — the outer `except` is unreachable for this query). -/
def create_certificate_record (st : AppState) (user_id training_id : Nat)
    (certificate_id : String) (today : PyDate) (connected : Bool) : AppState × Option Bool :=
  execute_query st connected (insertCertStmt certificate_id training_id user_id today)

/-- A row of the result set of the "Verify Certificate" SELECT
(src/app.py, lines 682-685): `c.*` joined with `u.full_name` and `t.title`. -/
structure VerifiedCert where
  certificate_id : String
  training_id : Nat
  user_id : Nat
  issue_date : PyDate
  full_name : String
  title : String
deriving DecidableEq

/-- The "Verify Certificate" branch of `certificate_management`
(src/app.py, lines 680-693): a SELECT on `certificates` filtered by
`certificate_id`, inner-joined with `users` and `trainings`. An empty result
set (unknown id, or a dangling join) and a database error both surface as
"Certificate not found or invalid", i.e. `none`. -/
def verifyCertificate (st : AppState) (search_cert_id : String) (connected : Bool) :
    Option VerifiedCert :=
  if connected then
    match st.certificates.find? (fun c => c.certificate_id == search_cert_id) with
    | none => none
    | some c =>
      match st.users.find? (fun u => u.id == c.user_id),
            st.trainings.find? (fun t => t.id == c.training_id) with
      | some u, some t => some ⟨c.certificate_id, c.training_id, c.user_id, c.issue_date,
          u.full_name, t.title⟩
      | _, _ => none
  else none

/-- A row of the result set of the `get_certificates` SELECT
(src/certificate_generator.py, lines 112-119): `c.*` joined with user name
columns and with `t.title`, `t.start_date`, `t.end_date`, `t.venue`,
`t.training_type` — the venue is read from the `trainings` table, the
`certificates` table stores none. -/
structure CertJoinRow where
  certificate_id : String
  training_id : Nat
  user_id : Nat
  issue_date : PyDate
  full_name : String
  first_name : String
  fathers_name : String
  grand_fathers_name : String
  training_title : String
  start_date : PyDate
  end_date : PyDate
  venue : String
  training_type : String
deriving DecidableEq

/-- Sort key for `ORDER BY c.issue_date DESC` (dates in this model have
month/day below 100, so the key is order-faithful). -/
def dateKey (d : PyDate) : Nat :=
  d.year * 10000 + d.month * 100 + d.day

/-- `CertificateGenerator.get_certificates`
(src/certificate_generator.py, lines 109-123): inner join of `certificates`
with `users` and `trainings`, ordered by `issue_date` descending. -/
def get_certificates (st : AppState) : List CertJoinRow :=
  List.insertionSort (fun a b => dateKey b.issue_date ≤ dateKey a.issue_date)
    (st.certificates.filterMap (fun c =>
      match st.users.find? (fun u => u.id == c.user_id),
            st.trainings.find? (fun t => t.id == c.training_id) with
      | some u, some t => some ⟨c.certificate_id, c.training_id, c.user_id, c.issue_date,
          u.full_name, u.first_name, u.fathers_name, u.grand_fathers_name,
          t.title, t.start_date, t.end_date, t.venue, t.training_type⟩
      | _, _ => none))

/-- A later edit to the referenced Training entity (spec §3 calls the Training
an external entity owned by a training-catalog collaborator; the repository
itself exposes no training-edit path). Modelled as the obvious
`UPDATE trainings SET venue = %s WHERE id = %s`. -/
def updateTrainingVenue (st : AppState) (tid : Nat) (v : String) : AppState :=
  { st with trainings := st.trainings.map (fun t => if t.id == tid then { t with venue := v } else t) }

/-- The successful result of the "Generate Certificate" branch: the fresh
certificate id and the PDF the download button serves. -/
structure IssueSuccess where
  certificate_id : String
  pdf : List DocElem
deriving DecidableEq

/-- The "Generate Certificate" branch of `certificate_management`
(src/app.py, lines 614-657), from form submission onward:

1. look up the selected user and training rows (`iloc[0]`; an absent row
   raises and aborts the script run before any state change);
2. build the participant display name, allocate the id via
   `generate_certificate_id(selected_user, selected_training)`;
3. render the PDF (`render_ok` models an unhandled rendering exception, which
   would abort the run before the database is touched);
4. `create_certificate_record` — on a truthy result the certificate is
   offered for download, otherwise an error is shown and nothing is issued.

Returns the post-state and `some` result exactly on full success. -/
def issueCertificate (st : AppState) (selected_user selected_training : Nat)
    (completion_date : PyDate) (training_venue training_duration : String)
    (now : PyTime) (qr_ok render_ok connected : Bool) : AppState × Option IssueSuccess :=
  match st.users.find? (fun u => u.id == selected_user),
        st.trainings.find? (fun t => t.id == selected_training) with
  | some user_info, some training_info =>
    let participant_name := user_info.first_name ++ " " ++ user_info.fathers_name ++ " "
      ++ user_info.grand_fathers_name
    let certificate_id := generate_certificate_id selected_user selected_training now
    if render_ok then
      let pdf_buffer := generate_certificate participant_name training_info.title
        (strftimeYmd completion_date) certificate_id training_venue training_duration qr_ok now
      match create_certificate_record st selected_user selected_training certificate_id
        now.toDate connected with
      | (st', some _) => (st', some ⟨certificate_id, pdf_buffer⟩)
      | (st', none) => (st', none)
    else (st, none)
  | _, _ => (st, none)

/-- Value of a decimal digit character (inverse of `digitChar` on digits). -/
def charVal : Char → Nat
  | '0' => 0 | '1' => 1 | '2' => 2 | '3' => 3 | '4' => 4
  | '5' => 5 | '6' => 6 | '7' => 7 | '8' => 8 | '9' => 9
  | _ => 0

/-- Whether a character is a decimal digit `0`-`9`. -/
def isDigitCh (c : Char) : Bool :=
  48 ≤ c.toNat && c.toNat ≤ 57

/-- Reading a digit string as a number, continuing from accumulator `a`. -/
def digitsValFrom (a : Nat) (l : List Char) : Nat :=
  l.foldl (fun acc c => 10 * acc + charVal c) a

/-- Numeric value of a decimal digit string. -/
def digitsVal (l : List Char) : Nat :=
  digitsValFrom 0 l

/-- Two instants fall in the same calendar minute (they may differ in seconds). -/
def sameMinute (c1 c2 : PyTime) : Prop :=
  c1.year = c2.year ∧ c1.month = c2.month ∧ c1.day = c2.day ∧
    c1.hour = c2.hour ∧ c1.minute = c2.minute

instance (c1 c2 : PyTime) : Decidable (sameMinute c1 c2) := by
  unfold sameMinute
  exact inferInstance

/-- Realistic ranges for the identifier inputs: `users.id`/`trainings.id` are
`SERIAL` values that fit the intended three-digit padding, and the clock fields
are within calendar ranges (stated loosely as digit-width bounds, which is all
the format argument needs). -/
def idBounds (u t : Nat) (c : PyTime) : Prop :=
  u < 1000 ∧ t < 1000 ∧ c.year < 10000 ∧ c.month < 100 ∧ c.day < 100 ∧
    c.hour < 100 ∧ c.minute < 100

instance (u t : Nat) (c : PyTime) : Decidable (idBounds u t c) := by
  unfold idBounds
  exact inferInstance

/-- A character allowed by the spec's `CERT-[A-Z0-9]{12}` identifier pattern
(uppercase Latin letter or decimal digit). -/
def certChar (ch : Char) : Bool :=
  (65 ≤ ch.toNat && ch.toNat ≤ 90) || (48 ≤ ch.toNat && ch.toNat ≤ 57)

/-- The spec's claimed identifier shape `CERT-[A-Z0-9]{12}` (spec §8
example scenario), formalised from the spec's words, as a decidable check. -/
def matchesCertPattern (s : String) : Bool :=
  match s.data with
  | c1 :: c2 :: c3 :: c4 :: c5 :: rest =>
    c1 == 'C' && c2 == 'E' && c3 == 'R' && c4 == 'T' && c5 == '-' &&
      rest.length == 12 && rest.all certChar
  | _ => false

/-- A sample trainee row (spec §8's example scenario). -/
def sampleUser : UserRow :=
  ⟨1, "Abebe Kebede Tesfaye", "Abebe", "Kebede", "Tesfaye", "Adama Hospital"⟩

/-- A sample training row whose venue is the one supplied at issuance. -/
def sampleTraining : TrainingRow :=
  ⟨1, "MNCH Basics", "A", ⟨2024, 2, 26⟩, ⟨2024, 3, 1⟩, "Adama Hospital", "5 days"⟩

/-- A sample database state: one trainee, one training, empty ledger. -/
def sampleState : AppState :=
  ⟨[sampleUser], [sampleTraining], []⟩

/-- An issuance instant (its calendar date, 2024-03-05, is not the sample
completion date 2024-03-01). -/
def clockA : PyTime := ⟨2024, 3, 5, 10, 30, 15⟩

/-- A different instant in the same calendar minute as `clockA`. -/
def clockB : PyTime := ⟨2024, 3, 5, 10, 30, 45⟩

/-- An instant one minute after `clockA`. -/
def clockC : PyTime := ⟨2024, 3, 5, 10, 31, 0⟩

/-- `sampleState` after issuing a certificate to user 1 for training 1 at
`clockA` with venue "Adama Hospital" and duration "5 days". -/
def sampleIssued : AppState :=
  (issueCertificate sampleState 1 1 ⟨2024, 3, 1⟩ "Adama Hospital" "5 days" clockA true true true).1

/-- `sampleIssued` after a later edit of training 1's venue. -/
def sampleEdited : AppState :=
  updateTrainingVenue sampleIssued 1 "Bishoftu Town Hall"

theorem charVal_digitChar {d : Nat} (h : d < 10) : charVal (digitChar d) = d := by
  interval_cases d <;> rfl

theorem isDigitCh_digitChar {d : Nat} (h : d < 10) : isDigitCh (digitChar d) = true := by
  interval_cases d <;> rfl

theorem digitsValFrom_append (a : Nat) (l1 l2 : List Char) :
    digitsValFrom a (l1 ++ l2) = digitsValFrom (digitsValFrom a l1) l2 :=
  List.foldl_append _ _ _ _

theorem natToDigitsAux_spec : ∀ fuel n a : Nat, n < 10 ^ fuel →
    digitsValFrom a (natToDigitsAux fuel n) = a * 10 ^ (natToDigitsAux fuel n).length + n := by
  intro fuel
  induction fuel with
  | zero =>
    intro n a h
    simp only [pow_zero, Nat.lt_one_iff] at h
    subst h
    simp [natToDigitsAux, digitsValFrom]
  | succ fuel ih =>
    intro n a h
    by_cases h10 : n < 10
    · simp [natToDigitsAux, h10, digitsValFrom, charVal_digitChar h10]
      omega
    · have hdiv : n / 10 < 10 ^ fuel := by
        rw [Nat.div_lt_iff_lt_mul (by norm_num)]
        calc n < 10 ^ (fuel + 1) := h
          _ = 10 ^ fuel * 10 := by ring
      simp only [natToDigitsAux, if_neg h10, digitsValFrom_append, List.length_append,
        List.length_cons, List.length_nil]
      have hmod : n % 10 < 10 := Nat.mod_lt _ (by norm_num)
      rw [ih (n / 10) a hdiv]
      simp only [digitsValFrom, List.foldl_cons, List.foldl_nil, charVal_digitChar hmod]
      have hnm := Nat.div_add_mod n 10
      rw [pow_succ]
      generalize (10 : Nat) ^ (natToDigitsAux fuel (n / 10)).length = p at *
      ring_nf
      omega

theorem digitsVal_natToDigits (n : Nat) : digitsVal (natToDigits n) = n := by
  have hfuel : n < 10 ^ (n + 1) := by
    have h1 : n < 10 ^ n := Nat.lt_pow_self (by norm_num) n
    have h2 : 10 ^ n ≤ 10 ^ (n + 1) := Nat.pow_le_pow_right (by norm_num) (by omega)
    omega
  have := natToDigitsAux_spec (n + 1) n 0 hfuel
  simpa [natToDigits, digitsVal] using this

theorem digitsValFrom_replicate_zero : ∀ k a : Nat,
    digitsValFrom a (List.replicate k '0') = a * 10 ^ k := by
  intro k
  induction k with
  | zero => intro a; simp [digitsValFrom]
  | succ k ih =>
    intro a
    simp only [List.replicate_succ, digitsValFrom, List.foldl_cons] at *
    rw [ih]
    show (10 * a + charVal '0') * 10 ^ k = a * 10 ^ (k + 1)
    simp [charVal]
    ring

theorem digitsVal_padNumList (w n : Nat) : digitsVal (padNumList w n) = n := by
  unfold padNumList digitsVal
  rw [digitsValFrom_append, digitsValFrom_replicate_zero]
  simpa using digitsVal_natToDigits n

theorem padNumList_inj {w1 w2 n1 n2 : Nat} (h : padNumList w1 n1 = padNumList w2 n2) :
    n1 = n2 := by
  have := congrArg digitsVal h
  rwa [digitsVal_padNumList, digitsVal_padNumList] at this

theorem natToDigitsAux_length_le : ∀ fuel w n : Nat, 0 < w → n < 10 ^ w →
    (natToDigitsAux fuel n).length ≤ w := by
  intro fuel
  induction fuel with
  | zero => intro w n hw _; simp [natToDigitsAux]
  | succ fuel ih =>
    intro w n hw hn
    by_cases h10 : n < 10
    · simpa [natToDigitsAux, h10] using hw
    · have hw2 : 2 ≤ w := by
        rcases Nat.lt_or_ge w 2 with hlt | hge
        · exfalso
          have : w = 1 := by omega
          subst this
          simp at hn
          omega
        · exact hge
      have hdiv : n / 10 < 10 ^ (w - 1) := by
        rw [Nat.div_lt_iff_lt_mul (by norm_num)]
        have hp : 10 ^ (w - 1) * 10 = 10 ^ w := by
          rw [← pow_succ]
          congr 1
          omega
        omega
      have := ih (w - 1) (n / 10) (by omega) hdiv
      simp only [natToDigitsAux, if_neg h10, List.length_append, List.length_cons,
        List.length_nil]
      omega

theorem natToDigits_length_le {w n : Nat} (hw : 0 < w) (hn : n < 10 ^ w) :
    (natToDigits n).length ≤ w :=
  natToDigitsAux_length_le _ w n hw hn

theorem padNumList_length {w n : Nat} (hw : 0 < w) (hn : n < 10 ^ w) :
    (padNumList w n).length = w := by
  unfold padNumList
  simp only [List.length_append, List.length_replicate]
  have := natToDigits_length_le hw hn
  omega

theorem natToDigitsAux_digits : ∀ fuel n : Nat, ∀ c ∈ natToDigitsAux fuel n,
    isDigitCh c = true := by
  intro fuel
  induction fuel with
  | zero => intro n c hc; simp [natToDigitsAux] at hc
  | succ fuel ih =>
    intro n c hc
    by_cases h10 : n < 10
    · simp [natToDigitsAux, h10] at hc
      subst hc
      exact isDigitCh_digitChar h10
    · simp only [natToDigitsAux, if_neg h10, List.mem_append, List.mem_singleton] at hc
      rcases hc with hc | hc
      · exact ih _ c hc
      · subst hc
        exact isDigitCh_digitChar (Nat.mod_lt _ (by norm_num))

theorem padNumList_digits (w n : Nat) : ∀ c ∈ padNumList w n, isDigitCh c = true := by
  intro c hc
  simp only [padNumList, List.mem_append, List.mem_replicate] at hc
  rcases hc with ⟨_, hc⟩ | hc
  · subst hc; rfl
  · exact natToDigitsAux_digits _ _ c hc

theorem tsDigits_length {c : PyTime} (h : c.year < 10000 ∧ c.month < 100 ∧ c.day < 100 ∧
    c.hour < 100 ∧ c.minute < 100) : (tsDigits c).length = 12 := by
  obtain ⟨hy, hmo, hd, hh, hmi⟩ := h
  simp only [tsDigits, List.length_append]
  rw [padNumList_length (by norm_num) (by simpa using hy),
    padNumList_length (by norm_num) (by simpa using hmo),
    padNumList_length (by norm_num) (by simpa using hd),
    padNumList_length (by norm_num) (by simpa using hh),
    padNumList_length (by norm_num) (by simpa using hmi)]

theorem tsDigits_sameMinute {c1 c2 : PyTime} (h : sameMinute c1 c2) :
    tsDigits c1 = tsDigits c2 := by
  obtain ⟨hy, hmo, hd, hh, hmi⟩ := h
  simp [tsDigits, hy, hmo, hd, hh, hmi]

theorem tsDigits_inj {c1 c2 : PyTime}
    (h1 : c1.year < 10000 ∧ c1.month < 100 ∧ c1.day < 100 ∧ c1.hour < 100 ∧ c1.minute < 100)
    (h2 : c2.year < 10000 ∧ c2.month < 100 ∧ c2.day < 100 ∧ c2.hour < 100 ∧ c2.minute < 100)
    (h : tsDigits c1 = tsDigits c2) : sameMinute c1 c2 := by
  obtain ⟨hy1, hmo1, hd1, hh1, hmi1⟩ := h1
  obtain ⟨hy2, hmo2, hd2, hh2, hmi2⟩ := h2
  simp only [tsDigits, List.append_assoc] at h
  obtain ⟨ey, h⟩ := List.append_inj h
    (by rw [padNumList_length (by norm_num) (by simpa using hy1),
      padNumList_length (by norm_num) (by simpa using hy2)])
  obtain ⟨emo, h⟩ := List.append_inj h
    (by rw [padNumList_length (by norm_num) (by simpa using hmo1),
      padNumList_length (by norm_num) (by simpa using hmo2)])
  obtain ⟨ed, h⟩ := List.append_inj h
    (by rw [padNumList_length (by norm_num) (by simpa using hd1),
      padNumList_length (by norm_num) (by simpa using hd2)])
  obtain ⟨eh, emi⟩ := List.append_inj h
    (by rw [padNumList_length (by norm_num) (by simpa using hh1),
      padNumList_length (by norm_num) (by simpa using hh2)])
  exact ⟨padNumList_inj ey, padNumList_inj emo, padNumList_inj ed,
    padNumList_inj eh, padNumList_inj emi⟩

theorem generate_certificate_id_data (u t : Nat) (c : PyTime) :
    (generate_certificate_id u t c).data =
      'M' :: 'N' :: 'C' :: 'H' :: '-' ::
        (padNumList 3 t ++ '-' :: (padNumList 3 u ++ '-' :: tsDigits c)) := by
  simp [generate_certificate_id, padNum, strftimeYmdHM, String.data_append]

theorem generate_certificate_id_inj {u1 t1 u2 t2 : Nat} {c1 c2 : PyTime}
    (h1 : idBounds u1 t1 c1) (h2 : idBounds u2 t2 c2)
    (h : generate_certificate_id u1 t1 c1 = generate_certificate_id u2 t2 c2) :
    u1 = u2 ∧ t1 = t2 ∧ sameMinute c1 c2 := by
  obtain ⟨hu1, ht1, hb1⟩ := h1
  obtain ⟨hu2, ht2, hb2⟩ := h2
  have hd := congrArg String.data h
  rw [generate_certificate_id_data, generate_certificate_id_data] at hd
  simp only [List.cons.injEq, true_and] at hd
  obtain ⟨et, hd⟩ := List.append_inj hd
    (by rw [padNumList_length (by norm_num) (by simpa using ht1),
      padNumList_length (by norm_num) (by simpa using ht2)])
  simp only [List.cons.injEq, true_and] at hd
  obtain ⟨eu, hd⟩ := List.append_inj hd
    (by rw [padNumList_length (by norm_num) (by simpa using hu1),
      padNumList_length (by norm_num) (by simpa using hu2)])
  simp only [List.cons.injEq, true_and] at hd
  exact ⟨padNumList_inj eu, padNumList_inj et, tsDigits_inj hb1 hb2 hd⟩

theorem certIdExists_false_find? {l : List CertRow} {cid : String}
    (h : certIdExists l cid = false) :
    l.find? (fun c => c.certificate_id == cid) = none := by
  rw [List.find?_eq_none]
  intro x hx
  simp only [certIdExists, List.any_eq_false] at h
  exact h x hx

theorem issueCertificate_run {st : AppState} {u t : Nat} {urow : UserRow} {trow : TrainingRow}
    (cdate : PyDate) (venue dur : String) (now : PyTime) (qr : Bool)
    (hu : st.users.find? (fun x => x.id == u) = some urow)
    (ht : st.trainings.find? (fun x => x.id == t) = some trow)
    (hfresh : certIdExists st.certificates (generate_certificate_id u t now) = false) :
    issueCertificate st u t cdate venue dur now qr true true =
      ({ st with certificates := st.certificates ++
          [⟨generate_certificate_id u t now, t, u, now.toDate⟩] },
       some ⟨generate_certificate_id u t now,
         generate_certificate
           (urow.first_name ++ " " ++ urow.fathers_name ++ " " ++ urow.grand_fathers_name)
           trow.title (strftimeYmd cdate) (generate_certificate_id u t now)
           venue dur qr now⟩) := by
  simp [issueCertificate, hu, ht, create_certificate_record, execute_query, insertCertStmt, hfresh]

theorem issueCertificate_render_fail (st : AppState) (u t : Nat) (cdate : PyDate)
    (venue dur : String) (now : PyTime) (qr connected : Bool) :
    issueCertificate st u t cdate venue dur now qr false connected = (st, none) := by
  unfold issueCertificate
  cases st.users.find? (fun x => x.id == u) with
  | none => rfl
  | some urow =>
    cases st.trainings.find? (fun x => x.id == t) with
    | none => rfl
    | some trow => simp

theorem issueCertificate_cases (st : AppState) (u t : Nat) (cdate : PyDate)
    (venue dur : String) (now : PyTime) (qr render_ok connected : Bool) :
    issueCertificate st u t cdate venue dur now qr render_ok connected = (st, none) ∨
    (∃ r : IssueSuccess,
      (issueCertificate st u t cdate venue dur now qr render_ok connected).2 = some r ∧
      r.certificate_id = generate_certificate_id u t now ∧
      (issueCertificate st u t cdate venue dur now qr render_ok connected).1 =
        { st with certificates := st.certificates ++
            [⟨generate_certificate_id u t now, t, u, now.toDate⟩] }) := by
  unfold issueCertificate
  cases hu : st.users.find? (fun x => x.id == u) with
  | none => left; rfl
  | some urow =>
    cases ht : st.trainings.find? (fun x => x.id == t) with
    | none => left; rfl
    | some trow =>
      cases hr : render_ok with
      | false => left; simp
      | true =>
        simp only [if_true]
        unfold create_certificate_record execute_query insertCertStmt
        cases hc : connected with
        | false => left; simp
        | true =>
          cases hex : certIdExists st.certificates (generate_certificate_id u t now) with
          | true => left; simp [hex]
          | false =>
            right
            refine ⟨⟨generate_certificate_id u t now,
              generate_certificate
                (urow.first_name ++ " " ++ urow.fathers_name ++ " " ++ urow.grand_fathers_name)
                trow.title (strftimeYmd cdate) (generate_certificate_id u t now)
                venue dur qr now⟩, ?_, rfl, ?_⟩ <;> simp [hex]

theorem padNumList_all (w n : Nat) : (padNumList w n).all isDigitCh = true := by
  rw [List.all_eq_true]
  exact padNumList_digits w n

theorem tsDigits_all (c : PyTime) : (tsDigits c).all isDigitCh = true := by
  simp [tsDigits, List.all_append, padNumList_all]

/-- C7 (counterexample): two renderer calls with identical six inputs (and the
same QR outcome) performed at two different wall-clock instants return
different PDF byte streams — the `/CreationDate` metadata reportlab embeds by
default differs — even though the drawn content is the same; byte-identity and
clock-independence fail as stated. -/
theorem c7_render_byte_counterexample :
    generate_certificate_pdf "Abebe Kebede Tesfaye" "MNCH Basics" "2024-03-01"
        (generate_certificate_id 1 1 clockA) "Adama Hospital" "5 days" true clockA ≠
      generate_certificate_pdf "Abebe Kebede Tesfaye" "MNCH Basics" "2024-03-01"
        (generate_certificate_id 1 1 clockA) "Adama Hospital" "5 days" true clockB ∧
    (generate_certificate_pdf "Abebe Kebede Tesfaye" "MNCH Basics" "2024-03-01"
        (generate_certificate_id 1 1 clockA) "Adama Hospital" "5 days" true clockA).content =
      (generate_certificate_pdf "Abebe Kebede Tesfaye" "MNCH Basics" "2024-03-01"
        (generate_certificate_id 1 1 clockA) "Adama Hospital" "5 days" true clockB).content := by
  constructor
  · intro he
    have hclock : clockA = clockB := congrArg PdfFile.creation_date he
    exact absurd hclock (by decide)
  · rfl

/-- C7 (amended): the renderer is deterministic at the level of its drawn
content — two calls with identical six inputs and the same QR outcome issue
the identical draw-command sequence (visually identical documents), the body
never reading the clock — but the returned PDF byte stream embeds the
wall-clock `/CreationDate` and a time-derived document ID, so calls at
distinct instants produce different bytes: byte-identity holds only between
calls at the same instant. -/
theorem c7_render_content_amended (participant_name training_title completion_date
    certificate_id training_venue training_duration : String) (qr_ok : Bool)
    (clock1 clock2 : PyTime) (h : clock1 ≠ clock2) :
    (generate_certificate_pdf participant_name training_title completion_date certificate_id
        training_venue training_duration qr_ok clock1).content =
      (generate_certificate_pdf participant_name training_title completion_date certificate_id
        training_venue training_duration qr_ok clock2).content ∧
    generate_certificate_pdf participant_name training_title completion_date certificate_id
        training_venue training_duration qr_ok clock1 ≠
      generate_certificate_pdf participant_name training_title completion_date certificate_id
        training_venue training_duration qr_ok clock2 := by
  refine ⟨rfl, ?_⟩
  intro he
  exact h (congrArg PdfFile.creation_date he)

theorem c7_render_content_amended_witness :
    clockA ≠ clockB ∧
      ((generate_certificate_pdf "Abebe Kebede Tesfaye" "MNCH Basics" "2024-03-01"
          "MNCH-001-001-202403051030" "Adama Hospital" "5 days" true clockA).content =
        (generate_certificate_pdf "Abebe Kebede Tesfaye" "MNCH Basics" "2024-03-01"
          "MNCH-001-001-202403051030" "Adama Hospital" "5 days" true clockB).content ∧
      generate_certificate_pdf "Abebe Kebede Tesfaye" "MNCH Basics" "2024-03-01"
          "MNCH-001-001-202403051030" "Adama Hospital" "5 days" true clockA ≠
        generate_certificate_pdf "Abebe Kebede Tesfaye" "MNCH Basics" "2024-03-01"
          "MNCH-001-001-202403051030" "Adama Hospital" "5 days" true clockB) :=
  ⟨by decide,
    c7_render_content_amended "Abebe Kebede Tesfaye" "MNCH Basics" "2024-03-01"
      "MNCH-001-001-202403051030" "Adama Hospital" "5 days" true clockA clockB (by decide)⟩

/-- C4: for every rendering input — in particular when the QR-encoding step
fails (`qr_ok = false`) — the renderer still returns a non-empty document that
contains the textual certificate ID. -/
theorem c4_graceful_degradation (participant_name training_title completion_date
    certificate_id training_venue training_duration : String) (qr_ok : Bool)
    (clock : PyTime) :
    generate_certificate participant_name training_title completion_date certificate_id
        training_venue training_duration qr_ok clock ≠ [] ∧
    DocElem.text ("Certificate ID: " ++ certificate_id) ∈
      generate_certificate participant_name training_title completion_date certificate_id
        training_venue training_duration qr_ok clock := by
  constructor
  · simp [generate_certificate]
  · simp [generate_certificate]

/-- C10: `generate_certificate_id(user_id, training_id)` is the string `MNCH-`
followed by the training id zero-padded to three digits, `-`, the user id
zero-padded to three digits, `-`, and the clock formatted `YYYYMMDDHHMM`;
consequently any two calls with the same ids within the same calendar minute
(even at different seconds) return the identical string. -/
theorem c10_id_format_minute_determinism (u t : Nat) (c c' : PyTime)
    (h : sameMinute c c') :
    generate_certificate_id u t c =
        "MNCH-" ++ padNum 3 t ++ "-" ++ padNum 3 u ++ "-" ++ strftimeYmdHM c ∧
      generate_certificate_id u t c = generate_certificate_id u t c' := by
  refine ⟨rfl, ?_⟩
  simp [generate_certificate_id, strftimeYmdHM, tsDigits_sameMinute h]

theorem c10_id_format_minute_determinism_witness :
    sameMinute clockA clockB ∧
      (generate_certificate_id 7 12 clockA =
          "MNCH-" ++ padNum 3 12 ++ "-" ++ padNum 3 7 ++ "-" ++ strftimeYmdHM clockA ∧
        generate_certificate_id 7 12 clockA = generate_certificate_id 7 12 clockB) :=
  ⟨by decide, c10_id_format_minute_determinism 7 12 clockA clockB (by decide)⟩

/-- C8 (counterexample): a successful run of the Generate Certificate branch
returns a certificate id that does not match the spec's `CERT-[A-Z0-9]{12}`
pattern. -/
theorem c8_pattern_counterexample :
    ((issueCertificate sampleState 1 1 ⟨2024, 3, 1⟩ "Adama Hospital" "5 days" clockA
        true true true).2.map (fun r => matchesCertPattern r.certificate_id)) = some false := by
  decide

/-- C8 (amended): every certificateId returned by a successful Issue call is
`MNCH-` followed by the three-digit-padded training id, a dash, the
three-digit-padded user id, a dash, and the twelve-digit `YYYYMMDDHHMM`
timestamp (all-digit groups of lengths 3, 3 and 12) — it never matches the
spec's claimed `CERT-[A-Z0-9]{12}` pattern. -/
theorem c8_id_format_amended (u t : Nat) (c : PyTime) (h : idBounds u t c) :
    ∃ a b ts : List Char,
      (generate_certificate_id u t c).data =
          'M' :: 'N' :: 'C' :: 'H' :: '-' :: (a ++ '-' :: (b ++ '-' :: ts)) ∧
        a.length = 3 ∧ b.length = 3 ∧ ts.length = 12 ∧
        a.all isDigitCh = true ∧ b.all isDigitCh = true ∧ ts.all isDigitCh = true ∧
        matchesCertPattern (generate_certificate_id u t c) = false := by
  obtain ⟨hu, ht, hy, hmo, hd, hh, hmi⟩ := h
  refine ⟨padNumList 3 t, padNumList 3 u, tsDigits c, generate_certificate_id_data u t c,
    padNumList_length (by norm_num) (by simpa using ht),
    padNumList_length (by norm_num) (by simpa using hu),
    tsDigits_length ⟨hy, hmo, hd, hh, hmi⟩,
    padNumList_all 3 t, padNumList_all 3 u, tsDigits_all c, ?_⟩
  simp [matchesCertPattern, generate_certificate_id_data]

theorem c8_id_format_amended_witness :
    idBounds 1 1 clockA ∧
      (∃ a b ts : List Char,
        (generate_certificate_id 1 1 clockA).data =
            'M' :: 'N' :: 'C' :: 'H' :: '-' :: (a ++ '-' :: (b ++ '-' :: ts)) ∧
          a.length = 3 ∧ b.length = 3 ∧ ts.length = 12 ∧
          a.all isDigitCh = true ∧ b.all isDigitCh = true ∧ ts.all isDigitCh = true ∧
          matchesCertPattern (generate_certificate_id 1 1 clockA) = false) :=
  ⟨by decide, c8_id_format_amended 1 1 clockA (by decide)⟩

/-- C5: in the Generate Certificate branch the document is rendered before the
ledger insert is attempted — if rendering fails nothing is recorded (the state
is returned unchanged), and in every case the call either succeeds having
appended exactly the one new ledger record, or fails having persisted
nothing. -/
theorem c5_render_before_record_atomicity (st : AppState) (u t : Nat) (cdate : PyDate)
    (venue dur : String) (now : PyTime) (qr render_ok connected : Bool) :
    (render_ok = false →
      issueCertificate st u t cdate venue dur now qr render_ok connected = (st, none)) ∧
    ((issueCertificate st u t cdate venue dur now qr render_ok connected).2 = none →
      (issueCertificate st u t cdate venue dur now qr render_ok connected).1 = st) ∧
    (∀ r, (issueCertificate st u t cdate venue dur now qr render_ok connected).2 = some r →
      (issueCertificate st u t cdate venue dur now qr render_ok connected).1 =
        { st with certificates := st.certificates ++
            [⟨generate_certificate_id u t now, t, u, now.toDate⟩] }) := by
  refine ⟨?_, ?_, ?_⟩
  · intro h
    subst h
    exact issueCertificate_render_fail st u t cdate venue dur now qr connected
  · intro h
    rcases issueCertificate_cases st u t cdate venue dur now qr render_ok connected with
      hca | ⟨r, hr2, -, -⟩
    · rw [hca]
    · rw [hr2] at h
      cases h
  · intro r hr
    rcases issueCertificate_cases st u t cdate venue dur now qr render_ok connected with
      hca | ⟨r', hr2, -, hst⟩
    · rw [hca] at hr
      cases hr
    · exact hst

theorem c5_render_before_record_atomicity_witness :
    issueCertificate sampleState 1 1 ⟨2024, 3, 1⟩ "Adama Hospital" "5 days" clockA
        true false true = (sampleState, none) :=
  (c5_render_before_record_atomicity sampleState 1 1 ⟨2024, 3, 1⟩ "Adama Hospital" "5 days"
    clockA true false true).1 rfl

/-- C6: the ledger is insert-only — any further Issue call (in particular a
second issuance for the same trainee/training pair) leaves an existing
certificate record untouched: a lookup that found it before finds it unchanged
afterwards. -/
theorem c6_ledger_immutability (st : AppState) (u t : Nat) (cdate : PyDate)
    (venue dur : String) (now : PyTime) (qr render_ok connected : Bool)
    (id1 : String) (r1 : CertRow)
    (h : st.certificates.find? (fun c => c.certificate_id == id1) = some r1) :
    ((issueCertificate st u t cdate venue dur now qr render_ok connected).1).certificates.find?
        (fun c => c.certificate_id == id1) = some r1 := by
  rcases issueCertificate_cases st u t cdate venue dur now qr render_ok connected with
    hca | ⟨r, -, -, hst⟩
  · rw [hca]
    exact h
  · rw [hst]
    simp [List.find?_append, h]

theorem c6_ledger_immutability_witness :
    sampleIssued.certificates.find?
        (fun c => c.certificate_id == generate_certificate_id 1 1 clockA) =
      some ⟨generate_certificate_id 1 1 clockA, 1, 1, ⟨2024, 3, 5⟩⟩ ∧
    ((issueCertificate sampleIssued 1 1 ⟨2024, 3, 1⟩ "Adama Hospital" "5 days" clockC
        true true true).1).certificates.find?
        (fun c => c.certificate_id == generate_certificate_id 1 1 clockA) =
      some ⟨generate_certificate_id 1 1 clockA, 1, 1, ⟨2024, 3, 5⟩⟩ :=
  ⟨by decide,
    c6_ledger_immutability sampleIssued 1 1 ⟨2024, 3, 1⟩ "Adama Hospital" "5 days" clockC
      true true true (generate_certificate_id 1 1 clockA)
      ⟨generate_certificate_id 1 1 clockA, 1, 1, ⟨2024, 3, 5⟩⟩ (by decide)⟩

/-- C9: the data layer absorbs every error — `execute_query` returns `(st, none)`
when the connection is unavailable or the statement raises (the transaction is
rolled back, so the state is unchanged), returns the committed state and value
on success, and `create_certificate_record` correspondingly returns the falsy
`none` (it never raises) when the insert fails, e.g. on a `certificate_id`
uniqueness violation. -/
theorem c9_execute_query_total {α : Type} (st : AppState) (connected : Bool)
    (stmt : AppState → Except String (AppState × α)) (u t : Nat) (cid : String)
    (today : PyDate) :
    (connected = false → execute_query st connected stmt = (st, none)) ∧
    (∀ e, stmt st = Except.error e → execute_query st connected stmt = (st, none)) ∧
    (∀ st' v, connected = true → stmt st = Except.ok (st', v) →
      execute_query st connected stmt = (st', some v)) ∧
    (certIdExists st.certificates cid = true ∨ connected = false →
      create_certificate_record st u t cid today connected = (st, none)) := by
  refine ⟨?_, ?_, ?_, ?_⟩
  · intro h
    simp [execute_query, h]
  · intro e he
    unfold execute_query
    cases connected <;> simp [he]
  · intro st' v hc hok
    simp [execute_query, hc, hok]
  · intro h
    unfold create_certificate_record execute_query insertCertStmt
    rcases h with h | h
    · cases connected <;> simp [h]
    · simp [h]

theorem c9_execute_query_total_witness :
    create_certificate_record sampleIssued 1 1 (generate_certificate_id 1 1 clockA)
        ⟨2024, 3, 5⟩ true = (sampleIssued, none) :=
  (c9_execute_query_total sampleIssued true
    (insertCertStmt (generate_certificate_id 1 1 clockA) 1 1 ⟨2024, 3, 5⟩) 1 1
    (generate_certificate_id 1 1 clockA) ⟨2024, 3, 5⟩).2.2.2 (Or.inl (by decide))

/-- C1 (counterexample): issuance with `completionDate = 2024-03-01` performed
on 2024-03-05 succeeds, but the record returned by Verify carries
`issue_date = 2024-03-05` (the issuance-day `CURRENT_DATE`), not the supplied
completion date — the spec's round-trip equality fails for `issueDate` (and the
ledger record has no venue/duration fields at all). -/
theorem c1_roundtrip_counterexample :
    ((issueCertificate sampleState 1 1 ⟨2024, 3, 1⟩ "Adama Hospital" "5 days" clockA
        true true true).2.map (fun r => r.certificate_id)) =
      some (generate_certificate_id 1 1 clockA) ∧
    ((verifyCertificate sampleIssued (generate_certificate_id 1 1 clockA) true).map
        (fun r => r.issue_date)) = some ⟨2024, 3, 5⟩ ∧
    (⟨2024, 3, 5⟩ : PyDate) ≠ ⟨2024, 3, 1⟩ := by
  decide

/-- C1 (amended): for every valid issuance input, verifying the returned
certificateId yields a record whose `user_id` and `training_id` equal the
issuance inputs and whose `issue_date` is the calendar date of issuance
(`CURRENT_DATE`) — not the supplied completionDate; the supplied venue and
durationLabel are not persisted in the ledger and are absent from the verified
record. -/
theorem c1_roundtrip_amended {st : AppState} {u t : Nat} {urow : UserRow} {trow : TrainingRow}
    (cdate : PyDate) (venue dur : String) (now : PyTime) (qr : Bool)
    (hu : st.users.find? (fun x => x.id == u) = some urow)
    (ht : st.trainings.find? (fun x => x.id == t) = some trow)
    (hfresh : certIdExists st.certificates (generate_certificate_id u t now) = false) :
    ∃ res : IssueSuccess,
      (issueCertificate st u t cdate venue dur now qr true true).2 = some res ∧
      res.certificate_id = generate_certificate_id u t now ∧
      verifyCertificate (issueCertificate st u t cdate venue dur now qr true true).1
          res.certificate_id true =
        some ⟨generate_certificate_id u t now, t, u, now.toDate, urow.full_name,
          trow.title⟩ := by
  have hrun := issueCertificate_run cdate venue dur now qr hu ht hfresh
  refine ⟨⟨generate_certificate_id u t now,
    generate_certificate
      (urow.first_name ++ " " ++ urow.fathers_name ++ " " ++ urow.grand_fathers_name)
      trow.title (strftimeYmd cdate) (generate_certificate_id u t now)
      venue dur qr now⟩, ?_, rfl, ?_⟩
  · rw [hrun]
  · rw [hrun]
    simp [verifyCertificate, List.find?_append, certIdExists_false_find? hfresh, hu, ht]

theorem c1_roundtrip_amended_witness :
    sampleState.users.find? (fun x => x.id == 1) = some sampleUser ∧
    sampleState.trainings.find? (fun x => x.id == 1) = some sampleTraining ∧
    certIdExists sampleState.certificates (generate_certificate_id 1 1 clockA) = false ∧
    (∃ res : IssueSuccess,
      (issueCertificate sampleState 1 1 ⟨2024, 3, 1⟩ "Adama Hospital" "5 days" clockA
          true true true).2 = some res ∧
      res.certificate_id = generate_certificate_id 1 1 clockA ∧
      verifyCertificate (issueCertificate sampleState 1 1 ⟨2024, 3, 1⟩ "Adama Hospital"
          "5 days" clockA true true true).1 res.certificate_id true =
        some ⟨generate_certificate_id 1 1 clockA, 1, 1, clockA.toDate, sampleUser.full_name,
          sampleTraining.title⟩) :=
  ⟨by decide, by decide, by decide,
    c1_roundtrip_amended ⟨2024, 3, 1⟩ "Adama Hospital" "5 days" clockA true
      (by decide) (by decide) (by decide)⟩

/-- C2 (counterexample): two Issue calls with identical inputs at two distinct
instants of the same calendar minute produce the identical certificateId, and
the second issuance then fails on the ledger's uniqueness constraint — the two
certificates are not both retrievable. -/
theorem c2_uniqueness_counterexample :
    clockA ≠ clockB ∧
    generate_certificate_id 1 1 clockA = generate_certificate_id 1 1 clockB ∧
    (issueCertificate sampleIssued 1 1 ⟨2024, 3, 1⟩ "Adama Hospital" "5 days" clockB
        true true true).2 = none := by
  decide

/-- C2 (amended): two Issue calls allocate distinct certificateIds — and both
certificates are then independently retrievable via Verify — provided the
calls differ in the trainee id, the training id, or the calendar minute of
issuance (within realistic digit-width bounds on ids and clock fields); calls
with identical inputs within one calendar minute reuse the same identifier. -/
theorem c2_uniqueness_amended {st : AppState} {u1 t1 u2 t2 : Nat} {c1 c2 : PyTime}
    {urow1 urow2 : UserRow} {trow1 trow2 : TrainingRow}
    (cd1 cd2 : PyDate) (v1 v2 d1 d2 : String) (qr1 qr2 : Bool)
    (hb1 : idBounds u1 t1 c1) (hb2 : idBounds u2 t2 c2)
    (hdiff : ¬(u1 = u2 ∧ t1 = t2 ∧ sameMinute c1 c2))
    (hu1 : st.users.find? (fun x => x.id == u1) = some urow1)
    (ht1 : st.trainings.find? (fun x => x.id == t1) = some trow1)
    (hu2 : st.users.find? (fun x => x.id == u2) = some urow2)
    (ht2 : st.trainings.find? (fun x => x.id == t2) = some trow2)
    (hf1 : certIdExists st.certificates (generate_certificate_id u1 t1 c1) = false)
    (hf2 : certIdExists st.certificates (generate_certificate_id u2 t2 c2) = false) :
    generate_certificate_id u1 t1 c1 ≠ generate_certificate_id u2 t2 c2 ∧
    (issueCertificate st u1 t1 cd1 v1 d1 c1 qr1 true true).2 ≠ none ∧
    (issueCertificate (issueCertificate st u1 t1 cd1 v1 d1 c1 qr1 true true).1
        u2 t2 cd2 v2 d2 c2 qr2 true true).2 ≠ none ∧
    verifyCertificate (issueCertificate (issueCertificate st u1 t1 cd1 v1 d1 c1 qr1 true true).1
        u2 t2 cd2 v2 d2 c2 qr2 true true).1 (generate_certificate_id u1 t1 c1) true =
      some ⟨generate_certificate_id u1 t1 c1, t1, u1, c1.toDate, urow1.full_name,
        trow1.title⟩ ∧
    verifyCertificate (issueCertificate (issueCertificate st u1 t1 cd1 v1 d1 c1 qr1 true true).1
        u2 t2 cd2 v2 d2 c2 qr2 true true).1 (generate_certificate_id u2 t2 c2) true =
      some ⟨generate_certificate_id u2 t2 c2, t2, u2, c2.toDate, urow2.full_name,
        trow2.title⟩ := by
  have hne : generate_certificate_id u1 t1 c1 ≠ generate_certificate_id u2 t2 c2 :=
    fun he => hdiff (generate_certificate_id_inj hb1 hb2 he)
  have hbeq : (generate_certificate_id u1 t1 c1 == generate_certificate_id u2 t2 c2) = false :=
    beq_eq_false_iff_ne.mpr hne
  have hrun1 := issueCertificate_run cd1 v1 d1 c1 qr1 hu1 ht1 hf1
  have h1a : (issueCertificate st u1 t1 cd1 v1 d1 c1 qr1 true true).1 =
      { st with certificates := st.certificates ++
          [⟨generate_certificate_id u1 t1 c1, t1, u1, c1.toDate⟩] } := by
    rw [hrun1]
  have hu2' : ({ st with certificates := st.certificates ++
      [⟨generate_certificate_id u1 t1 c1, t1, u1, c1.toDate⟩] } : AppState).users.find?
        (fun x => x.id == u2) = some urow2 := hu2
  have ht2' : ({ st with certificates := st.certificates ++
      [⟨generate_certificate_id u1 t1 c1, t1, u1, c1.toDate⟩] } : AppState).trainings.find?
        (fun x => x.id == t2) = some trow2 := ht2
  have hf2' : certIdExists ({ st with certificates := st.certificates ++
      [⟨generate_certificate_id u1 t1 c1, t1, u1, c1.toDate⟩] } : AppState).certificates
        (generate_certificate_id u2 t2 c2) = false := by
    show certIdExists (st.certificates ++ _) _ = false
    simp only [certIdExists, List.any_append] at hf2 ⊢
    simp [hf2, hbeq]
  have hrun2 := issueCertificate_run cd2 v2 d2 c2 qr2 hu2' ht2' hf2'
  refine ⟨hne, ?_, ?_, ?_, ?_⟩
  · rw [hrun1]
    simp
  · rw [h1a, hrun2]
    simp
  · rw [h1a, hrun2]
    simp only [verifyCertificate, if_true]
    simp only [List.find?_append, certIdExists_false_find? hf1]
    simp [hu1, ht1]
  · rw [h1a, hrun2]
    simp only [verifyCertificate, if_true]
    simp only [List.find?_append, certIdExists_false_find? hf2]
    simp [hu2, ht2, hbeq]

theorem c2_uniqueness_amended_witness :
    idBounds 1 1 clockA ∧ idBounds 1 1 clockC ∧
    ¬((1 : Nat) = 1 ∧ (1 : Nat) = 1 ∧ sameMinute clockA clockC) ∧
    (generate_certificate_id 1 1 clockA ≠ generate_certificate_id 1 1 clockC ∧
      (issueCertificate sampleState 1 1 ⟨2024, 3, 1⟩ "A" "5 days" clockA true true true).2 ≠
        none ∧
      (issueCertificate (issueCertificate sampleState 1 1 ⟨2024, 3, 1⟩ "A" "5 days" clockA
          true true true).1 1 1 ⟨2024, 3, 1⟩ "B" "3 days" clockC true true true).2 ≠ none ∧
      verifyCertificate (issueCertificate (issueCertificate sampleState 1 1 ⟨2024, 3, 1⟩ "A"
          "5 days" clockA true true true).1 1 1 ⟨2024, 3, 1⟩ "B" "3 days" clockC
          true true true).1 (generate_certificate_id 1 1 clockA) true =
        some ⟨generate_certificate_id 1 1 clockA, 1, 1, clockA.toDate, sampleUser.full_name,
          sampleTraining.title⟩ ∧
      verifyCertificate (issueCertificate (issueCertificate sampleState 1 1 ⟨2024, 3, 1⟩ "A"
          "5 days" clockA true true true).1 1 1 ⟨2024, 3, 1⟩ "B" "3 days" clockC
          true true true).1 (generate_certificate_id 1 1 clockC) true =
        some ⟨generate_certificate_id 1 1 clockC, 1, 1, clockC.toDate, sampleUser.full_name,
          sampleTraining.title⟩) :=
  ⟨by decide, by decide, by decide,
    c2_uniqueness_amended ⟨2024, 3, 1⟩ ⟨2024, 3, 1⟩ "A" "B" "5 days" "3 days" true true
      (by decide) (by decide) (by decide) (by decide) (by decide) (by decide) (by decide)
      (by decide) (by decide)⟩

/-- C3 (counterexample): a certificate issued while training 1's venue was
"Adama Hospital" is listed with venue "Bishoftu Town Hall" after the training
row is edited — the reported venue is not an issuance-time copy. -/
theorem c3_denormalized_counterexample :
    ((get_certificates sampleIssued).find?
        (fun r => r.certificate_id == generate_certificate_id 1 1 clockA)).map
        (fun r => r.venue) = some "Adama Hospital" ∧
    ((get_certificates sampleEdited).find?
        (fun r => r.certificate_id == generate_certificate_id 1 1 clockA)).map
        (fun r => r.venue) = some "Bishoftu Town Hall" ∧
    ("Bishoftu Town Hall" : String) ≠ "Adama Hospital" := by
  decide

/-- C3 (amended): the venue reported for an issued certificate is a live
reference, not an issuance-time copy — the ledger row stores no venue, and
after the referenced training's venue is edited to `v'`, every listing row for
that certificate reports `v'` (the current value), regardless of what was
supplied at issuance. -/
theorem c3_live_join_amended {st : AppState} {tid : Nat} {v' cid : String}
    (huniq : ∀ c ∈ st.certificates, c.certificate_id = cid → c.training_id = tid) :
    ∀ r ∈ get_certificates (updateTrainingVenue st tid v'),
      r.certificate_id = cid → r.venue = v' := by
  intro r hr hcid
  unfold get_certificates at hr
  rw [List.mem_insertionSort, List.mem_filterMap] at hr
  obtain ⟨c, hc, hfc⟩ := hr
  have hcerts : (updateTrainingVenue st tid v').certificates = st.certificates := rfl
  rw [hcerts] at hc
  rcases hu : List.find? (fun u => u.id == c.user_id) (updateTrainingVenue st tid v').users with
    _ | u
  · rw [hu] at hfc
    simp at hfc
  · rcases htr : List.find? (fun x => x.id == c.training_id)
      (updateTrainingVenue st tid v').trainings with _ | trow
    · rw [hu, htr] at hfc
      simp at hfc
    · rw [hu, htr] at hfc
      simp only [Option.some.injEq] at hfc
      subst hfc
      have hct : c.training_id = tid := huniq c hc (by simpa using hcid)
      have hptrue := List.find?_some htr
      have htid : trow.id = tid := by
        simp only [beq_iff_eq] at hptrue
        rw [hptrue, hct]
      have hmem := List.mem_of_find?_eq_some htr
      have hmap : (updateTrainingVenue st tid v').trainings =
          st.trainings.map (fun t => if t.id == tid then { t with venue := v' } else t) := rfl
      rw [hmap, List.mem_map] at hmem
      obtain ⟨t0, -, hft0⟩ := hmem
      by_cases h0 : t0.id == tid
      · rw [if_pos h0] at hft0
        show trow.venue = v'
        rw [← hft0]
      · rw [if_neg h0] at hft0
        exfalso
        rw [← hft0] at htid
        simp at h0
        exact h0 htid

theorem c3_live_join_amended_witness :
    (∀ c ∈ sampleIssued.certificates,
      c.certificate_id = generate_certificate_id 1 1 clockA → c.training_id = 1) ∧
    (∀ r ∈ get_certificates (updateTrainingVenue sampleIssued 1 "Bishoftu Town Hall"),
      r.certificate_id = generate_certificate_id 1 1 clockA →
        r.venue = "Bishoftu Town Hall") :=
  ⟨by decide, c3_live_join_amended (by decide)⟩
